import Mathlib

/-!
Shallow embedding of the pipeline_cli run-orchestration core
(src/pipeline_cli/pipeline.py together with models.py, artifacts.py and
errors.py).

Timestamps are modelled by an abstract monotone clock: every call to the
time source returns the current tick (a natural number) and advances the
clock by one, so two distinct calls always yield distinct ticks and the
records made by a single call share one tick.  The console collaborator
behind the Python input() builtin is modelled by the answer string it would return
together with a count of how many times it was invoked.  time.sleep is
modelled by its argument check (Python raises ValueError on a negative
sleep length) plus the list of sleep durations actually performed, and
simulate_seconds is an integer (only its sign and the clamp matter here).
-/

namespace PipelineCli

/-- models.py: the StepResult dataclass; timestamps are clock ticks. -/
structure StepResult where
  name : String
  status : String
  started_at : Nat
  finished_at : Nat
  message : String
deriving Repr, DecidableEq

/-- models.py: the RunResult dataclass. -/
structure RunResult where
  run_id : String
  artifact : String
  approved : Bool
  status : String
  started_at : Nat
  finished_at : Nat
  steps : List StepResult
deriving Repr, DecidableEq

/-- errors.py (ArtifactNotFoundError, ApprovalRejectedError) plus the
ValueError that Python time.sleep raises on a negative argument. -/
inductive PyError where
  | artifactNotFound (msg : String)
  | approvalRejected (msg : String)
  | valueError (msg : String)
deriving Repr, DecidableEq

/-- artifacts.py: the Artifact dataclass. -/
structure Artifact where
  key : String
  description : String
deriving Repr, DecidableEq

/-- artifacts.py: DEFAULT_ARTIFACTS. -/
def DEFAULT_ARTIFACTS : List Artifact :=
  [Artifact.mk "api-service@1.0.0" "API service container image",
   Artifact.mk "web-frontend@2.3.1" "Web frontend static bundle",
   Artifact.mk "worker@0.9.5" "Background worker binary"]

/-- artifacts.py: artifact_exists. -/
def artifact_exists (key : String) : Bool :=
  DEFAULT_ARTIFACTS.any (fun a => a.key == key)

/-- models.py: utc_now_iso, as reading and advancing the abstract clock. -/
def utc_now_iso (clock : Nat) : Nat × Nat :=
  (clock, clock + 1)

/-- pipeline.py: PIPELINE_STEPS. -/
def PIPELINE_STEPS : List String := ["build", "test", "package", "deploy"]

/-- Python str whitespace test (ASCII subset) used by .strip(). -/
def py_is_space (c : Char) : Bool :=
  c == ' ' || c == '\t' || c == '\n' || c == '\r' || c == '\x0b' || c == '\x0c'

/-- Python str.lower on one character (ASCII range). -/
def py_lower_char (c : Char) : Char :=
  if 65 ≤ c.toNat && c.toNat ≤ 90 then Char.ofNat (c.toNat + 32) else c

/-- Python `s.strip().lower()` (ASCII-faithful, at the character level). -/
def py_strip_lower (s : String) : String :=
  String.mk ((((s.data.dropWhile py_is_space).reverse.dropWhile py_is_space).reverse).map
    py_lower_char)

/-- pipeline.py: require_approval.  `console_answer` is the string the
blocking input() collaborator would return; the second component counts
how many times input() was invoked. -/
def require_approval (auto_yes : Bool) (console_answer : String) : Bool × Nat :=
  if auto_yes then (true, 0)
  else
    let ans := py_strip_lower console_answer
    ((ans == "y" || ans == "yes" || ans == "o" || ans == "oui"), 1)

/-- time.sleep: raises ValueError on a negative argument, otherwise a no-op. -/
def time_sleep (secs : Int) : Except PyError Unit :=
  if secs < 0 then Except.error (PyError.valueError "sleep length must be non-negative")
  else Except.ok ()

/-- The Python truthiness test `fail_step and step == fail_step` guarding the
failure branch: both None and the empty string are falsy. -/
def fail_triggers (fail_step : Option String) (step : String) : Bool :=
  match fail_step with
  | none => false
  | some fs => (fs != "") && (step == fs)

/-- pipeline.py: the inner `for remaining in ...` loop that records the
remaining steps as skipped; returns the results and the advanced clock. -/
def skip_remaining : List String → Nat → List StepResult × Nat
  | [], clock => ([], clock)
  | remaining :: rest, clock =>
    let (n, c1) := utc_now_iso clock
    let (l, c2) := skip_remaining rest c1
    (StepResult.mk remaining "skipped" n n "Skipped due to previous failure." :: l, c2)

/-- pipeline.py: the `for step in PIPELINE_STEPS` loop of run_pipeline, with
the step sequence as a parameter as §4.3 of the spec requires.  Returns the
step results together with the `overall_status == "failed"` flag, then the
clock and the list of sleep durations actually performed. -/
def execute (steps : List String) (fail_step : Option String)
    (simulate_seconds : Int) (clock : Nat) :
    Except PyError (List StepResult × Bool) × Nat × List Int :=
  match steps with
  | [] => (Except.ok ([], false), clock, [])
  | step :: rest =>
    let (step_start, c1) := utc_now_iso clock
    match time_sleep (max 0 simulate_seconds) with
    | Except.error e => (Except.error e, c1, [])
    | Except.ok _ =>
      if fail_triggers fail_step step then
        let (step_end, c2) := utc_now_iso c1
        let msg := "Simulated failure at step \x27" ++ step ++ "\x27."
        let (skipped, c3) := skip_remaining rest c2
        (Except.ok (StepResult.mk step "failed" step_start step_end msg :: skipped, true),
         c3, [max 0 simulate_seconds])
      else
        let (step_end, c2) := utc_now_iso c1
        match execute rest fail_step simulate_seconds c2 with
        | (Except.error e, c3, sl) => (Except.error e, c3, max 0 simulate_seconds :: sl)
        | (Except.ok (rs, flag), c3, sl) =>
          (Except.ok (StepResult.mk step "success" step_start step_end "OK" :: rs, flag),
           c3, max 0 simulate_seconds :: sl)

/-- Observable side effects of one run_pipeline call: how often the input()
collaborator was invoked and which sleep durations were performed. -/
structure Effects where
  inputCalls : Nat
  sleeps : List Int
deriving Repr, DecidableEq

/-- pipeline.py: the tail of run_pipeline after the approval gate — the step
loop, the final timestamp and the RunResult assembly. -/
def finish_run (run_id artifact : String) (approved : Bool)
    (fail_step : Option String) (simulate_seconds : Int)
    (started_at : Nat) (clock : Nat) (inputCalls : Nat) :
    Except PyError RunResult × Effects :=
  match execute PIPELINE_STEPS fail_step simulate_seconds clock with
  | (Except.error e, _, sl) => (Except.error e, Effects.mk inputCalls sl)
  | (Except.ok (step_results, failed), c1, sl) =>
    let (finished_at, _) := utc_now_iso c1
    (Except.ok (RunResult.mk run_id artifact approved
        (if failed then "failed" else "success") started_at finished_at step_results),
     Effects.mk inputCalls sl)

/-- pipeline.py: run_pipeline. -/
def run_pipeline (run_id artifact : String)
    (require_manual_approval auto_yes : Bool)
    (fail_step : Option String) (simulate_seconds : Int)
    (console_answer : String) (clock : Nat) :
    Except PyError RunResult × Effects :=
  let (started_at, c1) := utc_now_iso clock
  if artifact_exists artifact then
    if require_manual_approval then
      let (approved, calls) := require_approval auto_yes console_answer
      if approved then
        finish_run run_id artifact approved fail_step simulate_seconds started_at c1 calls
      else
        (Except.error (PyError.approvalRejected "Approval rejected by user."),
         Effects.mk calls [])
    else
      finish_run run_id artifact true fail_step simulate_seconds started_at c1 0
  else
    (Except.error (PyError.artifactNotFound ("Unknown artifact: " ++ artifact)),
     Effects.mk 0 [])

/-! Helper lemmas about the embedded operations. -/

/-- The clamped sleep the step loop performs never raises. -/
lemma time_sleep_clamp (secs : Int) : time_sleep (max 0 secs) = Except.ok () := by
  unfold time_sleep
  rw [if_neg (not_lt.mpr (le_max_left 0 secs))]

/-- The skip loop records exactly the remaining step names, each as a
skipped result at a single instant not earlier than the entry clock. -/
lemma skip_remaining_spec (rest : List String) (clock : Nat) :
    (skip_remaining rest clock).1.map StepResult.name = rest ∧
    ∀ r ∈ (skip_remaining rest clock).1,
      r.status = "skipped" ∧ r.started_at = r.finished_at ∧
      r.message = "Skipped due to previous failure." ∧ clock ≤ r.started_at := by
  induction rest generalizing clock with
  | nil => simp [skip_remaining]
  | cons s rest ih =>
    obtain ⟨ih1, ih2⟩ := ih (clock + 1)
    constructor
    · simp only [skip_remaining, utc_now_iso, List.map_cons]
      rw [ih1]
    · intro r hr
      simp only [skip_remaining, utc_now_iso, List.mem_cons] at hr
      rcases hr with hr | hr
      · subst hr
        exact ⟨rfl, rfl, rfl, le_refl _⟩
      · obtain ⟨h1, h2, h3, h4⟩ := ih2 r hr
        exact ⟨h1, h2, h3, le_trans (Nat.le_succ clock) h4⟩

/-- The step loop never raises, returns one result per step, and its
failed-flag equals "some result has status failed". -/
lemma execute_spec (steps : List String) (f : Option String) (secs : Int) (clock : Nat) :
    ∃ rs flag c2 sl,
      execute steps f secs clock = (Except.ok (rs, flag), c2, sl) ∧
      rs.length = steps.length ∧
      flag = rs.any (fun r => r.status == "failed") := by
  induction steps generalizing clock with
  | nil => exact ⟨[], false, clock, [], rfl, rfl, rfl⟩
  | cons step rest ih =>
    cases hft : fail_triggers f step with
    | true =>
      obtain ⟨hname, _⟩ := skip_remaining_spec rest (clock + 2)
      refine ⟨StepResult.mk step "failed" clock (clock + 1)
          ("Simulated failure at step \x27" ++ step ++ "\x27.") ::
          (skip_remaining rest (clock + 2)).1, true,
          (skip_remaining rest (clock + 2)).2, [max 0 secs], ?_, ?_, ?_⟩
      · simp [execute, utc_now_iso, time_sleep_clamp, hft]
      · have hl := congrArg List.length hname
        rw [List.length_map] at hl
        simp [hl]
      · simp
    | false =>
      obtain ⟨rs, flag, c2, sl, heq, hlen, hflag⟩ := ih (clock + 2)
      refine ⟨StepResult.mk step "success" clock (clock + 1) "OK" :: rs, flag, c2,
          max 0 secs :: sl, ?_, ?_, ?_⟩
      · simp [execute, utc_now_iso, time_sleep_clamp, hft, heq]
      · simp [hlen]
      · simp [hflag]

/-- When no step triggers the failure branch, the loop emits one success
result per step, in order, and the failed-flag stays false. -/
lemma execute_all_success (steps : List String) (f : Option String) (secs : Int)
    (h : ∀ s ∈ steps, fail_triggers f s = false) (clock : Nat) :
    ∃ rs c2 sl,
      execute steps f secs clock = (Except.ok (rs, false), c2, sl) ∧
      rs.map StepResult.name = steps ∧
      ∀ r ∈ rs, r.status = "success" ∧ r.message = "OK" := by
  induction steps generalizing clock with
  | nil => exact ⟨[], clock, [], rfl, rfl, by simp⟩
  | cons step rest ih =>
    have hft : fail_triggers f step = false := h step (List.mem_cons_self step rest)
    obtain ⟨rs, c2, sl, heq, hname, hprops⟩ :=
      ih (fun s hs => h s (List.mem_cons_of_mem step hs)) (clock + 2)
    refine ⟨StepResult.mk step "success" clock (clock + 1) "OK" :: rs, c2,
        max 0 secs :: sl, ?_, ?_, ?_⟩
    · simp [execute, utc_now_iso, time_sleep_clamp, hft, heq]
    · simp [hname]
    · intro r hr
      rcases List.mem_cons.mp hr with hr | hr
      · subst hr; exact ⟨rfl, rfl⟩
      · exact hprops r hr

/-- When the failure branch first triggers at step `s0` (no earlier step
triggers it), the loop emits: one success result per earlier step, a failed
result for `s0` spanning exactly that step, then one skipped result per
later step, each at a single instant strictly after the failure; the
failed-flag is set. -/
lemma execute_fail_split (pre post : List String) (s0 : String) (f : Option String)
    (hs : fail_triggers f s0 = true) (hpre : ∀ p ∈ pre, fail_triggers f p = false)
    (secs : Int) (clock : Nat) :
    ∃ su fr sk c2 sl,
      execute (pre ++ s0 :: post) f secs clock = (Except.ok (su ++ fr :: sk, true), c2, sl) ∧
      su.map StepResult.name = pre ∧
      (∀ r ∈ su, r.status = "success" ∧ r.message = "OK") ∧
      fr.name = s0 ∧ fr.status = "failed" ∧
      fr.message = "Simulated failure at step \x27" ++ s0 ++ "\x27." ∧
      fr.finished_at = fr.started_at + 1 ∧
      sk.map StepResult.name = post ∧
      (∀ r ∈ sk, r.status = "skipped" ∧ r.started_at = r.finished_at ∧
        r.message = "Skipped due to previous failure." ∧ fr.finished_at < r.started_at) := by
  induction pre generalizing clock with
  | nil =>
    obtain ⟨hname, hprops⟩ := skip_remaining_spec post (clock + 2)
    refine ⟨[], StepResult.mk s0 "failed" clock (clock + 1)
        ("Simulated failure at step \x27" ++ s0 ++ "\x27."),
        (skip_remaining post (clock + 2)).1, (skip_remaining post (clock + 2)).2,
        [max 0 secs], ?_, rfl, by simp, rfl, rfl, rfl, rfl, hname, ?_⟩
    · simp [execute, utc_now_iso, time_sleep_clamp, hs]
    · intro r hr
      obtain ⟨h1, h2, h3, h4⟩ := hprops r hr
      exact ⟨h1, h2, h3, Nat.lt_of_lt_of_le (Nat.lt_succ_self _) h4⟩
  | cons p pre ih =>
    have hft : fail_triggers f p = false := hpre p (List.mem_cons_self p pre)
    obtain ⟨su, fr, sk, c2, sl, heq, hsu_name, hsu_props, hfr⟩ :=
      ih (fun q hq => hpre q (List.mem_cons_of_mem p hq)) (clock + 2)
    refine ⟨StepResult.mk p "success" clock (clock + 1) "OK" :: su, fr, sk, c2,
        max 0 secs :: sl, ?_, ?_, ?_, hfr⟩
    · simp [execute, utc_now_iso, time_sleep_clamp, hft, heq]
    · simp [hsu_name]
    · intro r hr
      rcases List.mem_cons.mp hr with hr | hr
      · subst hr; exact ⟨rfl, rfl⟩
      · exact hsu_props r hr

/-- The loop only ever sees the clamped delay `max 0 simulate_seconds`. -/
lemma execute_clamp (steps : List String) (f : Option String) (secs : Int) (clock : Nat) :
    execute steps f secs clock = execute steps f (max 0 secs) clock := by
  induction steps generalizing clock with
  | nil => rfl
  | cons step rest ih =>
    simp only [execute, max_eq_right (le_max_left 0 secs), ih]

/-- A negative delay behaves exactly like a zero delay. -/
lemma execute_neg (steps : List String) (f : Option String) (secs : Int) (clock : Nat)
    (h : secs < 0) :
    execute steps f secs clock = execute steps f 0 clock := by
  rw [execute_clamp steps f secs clock, max_eq_left h.le]

/-- The assembly tail always returns a RunResult carrying its inputs, one
step result per pipeline step, and the derived overall status. -/
lemma finish_run_spec (run_id artifact : String) (approved : Bool) (f : Option String)
    (secs : Int) (started_at clock inputCalls : Nat) :
    ∃ r eff,
      finish_run run_id artifact approved f secs started_at clock inputCalls =
        (Except.ok r, eff) ∧
      r.run_id = run_id ∧ r.artifact = artifact ∧ r.approved = approved ∧
      r.started_at = started_at ∧
      r.steps.length = PIPELINE_STEPS.length ∧
      r.status = (if r.steps.any (fun s => s.status == "failed") then "failed" else "success") ∧
      eff.inputCalls = inputCalls := by
  obtain ⟨rs, flag, c2, sl, heq, hlen, hflag⟩ := execute_spec PIPELINE_STEPS f secs clock
  refine ⟨RunResult.mk run_id artifact approved (if flag then "failed" else "success")
      started_at c2 rs, Effects.mk inputCalls sl, ?_, rfl, rfl, rfl, rfl, hlen, ?_, rfl⟩
  · simp [finish_run, heq, utc_now_iso]
  · rw [hflag]

/-- Every RunResult actually returned went through the assembly tail with
approval granted: it is approved and has the derived overall status. -/
lemma run_pipeline_ok_spec (run_id artifact : String) (rm ay : Bool) (f : Option String)
    (secs : Int) (ans : String) (clock : Nat) (r : RunResult) (eff : Effects)
    (h : run_pipeline run_id artifact rm ay f secs ans clock = (Except.ok r, eff)) :
    r.approved = true ∧ r.steps.length = PIPELINE_STEPS.length ∧
    r.status = (if r.steps.any (fun s => s.status == "failed") then "failed" else "success") := by
  unfold run_pipeline at h
  by_cases hart : artifact_exists artifact
  · simp only [hart, if_true, utc_now_iso] at h
    cases rm with
    | true =>
      simp only [if_true] at h
      rcases hra : require_approval ay ans with ⟨ap, n⟩
      rw [hra] at h
      cases ap with
      | false => simp at h
      | true =>
        simp only [if_true] at h
        obtain ⟨r2, eff2, heq, _, _, hap, _, hlen, hst, _⟩ :=
          finish_run_spec run_id artifact true f secs clock (clock + 1) n
        rw [heq] at h
        simp only [Prod.mk.injEq, Except.ok.injEq] at h
        obtain ⟨hr, _⟩ := h
        subst hr
        exact ⟨hap, hlen, hst⟩
    | false =>
      simp only [Bool.false_eq_true, if_false] at h
      obtain ⟨r2, eff2, heq, _, _, hap, _, hlen, hst, _⟩ :=
        finish_run_spec run_id artifact true f secs clock (clock + 1) 0
      rw [heq] at h
      simp only [Prod.mk.injEq, Except.ok.injEq] at h
      obtain ⟨hr, _⟩ := h
      subst hr
      exact ⟨hap, hlen, hst⟩
  · simp [hart, utc_now_iso] at h

/-- run_pipeline never surfaces the ValueError a negative sleep would raise:
its only errors are the two pipeline errors, raised before the loop. -/
lemma run_pipeline_no_value_error (run_id artifact : String) (rm ay : Bool)
    (f : Option String) (secs : Int) (ans : String) (clock : Nat) (m : String) :
    (run_pipeline run_id artifact rm ay f secs ans clock).1 ≠
      Except.error (PyError.valueError m) := by
  unfold run_pipeline
  by_cases hart : artifact_exists artifact
  · simp only [hart, if_true, utc_now_iso]
    cases rm with
    | true =>
      simp only [if_true]
      rcases hra : require_approval ay ans with ⟨ap, n⟩
      cases ap with
      | false => simp
      | true =>
        simp only [if_true]
        obtain ⟨r2, eff2, heq, _⟩ :=
          finish_run_spec run_id artifact true f secs clock (clock + 1) n
        simp [heq]
    | false =>
      simp only [Bool.false_eq_true, if_false]
      obtain ⟨r2, eff2, heq, _⟩ :=
        finish_run_spec run_id artifact true f secs clock (clock + 1) 0
      simp [heq]
  · simp [hart, utc_now_iso]

/-- A nonempty fail step name triggers the failure branch at itself. -/
lemma fail_triggers_self (f : String) (hne : f ≠ "") :
    fail_triggers (some f) f = true := by
  show (f != "" && f == f) = true
  rw [show (f != "") = true from bne_iff_ne.mpr hne, beq_self_eq_true f]
  rfl

/-- A step with a different name never triggers the failure branch. -/
lemma fail_triggers_ne (f s : String) (hne : s ≠ f) :
    fail_triggers (some f) s = false := by
  unfold fail_triggers
  simp [beq_eq_false_iff_ne.mpr hne]

/-- Claim C1, corrected: the claimed shape holds for every step sequence and
every NONEMPTY member failStep (decomposed at its first occurrence): the
loop returns one result per step, successes strictly before the fail step,
a failed result at it, and skipped results strictly after it.  The
unamended claim fails for the empty-string step name, see the
counterexample. -/
theorem C1_fail_step_shape (pre post : List String) (f : String) (hne : f ≠ "")
    (hpre : f ∉ pre) (secs : Int) (clock : Nat) :
    ∃ rs c2 sl,
      execute (pre ++ f :: post) (some f) secs clock = (Except.ok (rs, true), c2, sl) ∧
      rs.length = (pre ++ f :: post).length ∧
      rs.map StepResult.status =
        pre.map (fun _ => "success") ++ "failed" :: post.map (fun _ => "skipped") := by
  have hs : fail_triggers (some f) f = true := fail_triggers_self f hne
  have hpre2 : ∀ p ∈ pre, fail_triggers (some f) p = false :=
    fun p hp => fail_triggers_ne f p (fun hpf => hpre (hpf ▸ hp))
  obtain ⟨su, fr, sk, c2, sl, heq, hsu_name, hsu_props, _, hfrstat, _, _, hsk_name, hsk_props⟩ :=
    execute_fail_split pre post f (some f) hs hpre2 secs clock
  refine ⟨su ++ fr :: sk, c2, sl, heq, ?_, ?_⟩
  · have h1 := congrArg List.length hsu_name
    rw [List.length_map] at h1
    have h2 := congrArg List.length hsk_name
    rw [List.length_map] at h2
    simp [h1, h2]
  · have hsu : su.map StepResult.status = pre.map (fun _ => "success") := by
      rw [← hsu_name, List.map_map]
      exact List.map_congr_left (fun r hr => (hsu_props r hr).1)
    have hsk : sk.map StepResult.status = post.map (fun _ => "skipped") := by
      rw [← hsk_name, List.map_map]
      exact List.map_congr_left (fun r hr => (hsk_props r hr).1)
    rw [List.map_append, List.map_cons, hsu, hsk, hfrstat]

/-- Claim C1, counterexample to the unamended claim: with step sequence
containing the empty-string step and failStep equal to that member, Python
truthiness (`if fail_step and ...`) never triggers the failure branch, so
the result for the fail step is success, not failed. -/
theorem C1_claim_counterexample :
    "" ∈ ([""] : List String) ∧
    ¬ ∃ rs flag c2 sl,
        execute [""] (some "") 0 0 = (Except.ok (rs, flag), c2, sl) ∧
        rs.map StepResult.status = ["failed"] := by
  constructor
  · exact List.mem_singleton.mpr rfl
  · rintro ⟨rs, flag, c2, sl, heq, hst⟩
    have hev : execute [""] (some "") 0 0 =
        (Except.ok ([StepResult.mk "" "success" 0 1 "OK"], false), 2, [0]) := by rfl
    rw [hev] at heq
    simp only [Prod.mk.injEq, Except.ok.injEq] at heq
    obtain ⟨⟨hrs, _⟩, _⟩ := heq
    rw [← hrs] at hst
    exact absurd hst (by decide)

/-- Witness for C1 at a concrete input: fail step test of the pipeline
sequence, with one earlier and two later steps. -/
theorem C1_fail_step_shape_witness :
    ("test" : String) ≠ "" ∧ "test" ∉ (["build"] : List String) ∧
    (∃ rs c2 sl,
      execute (["build"] ++ "test" :: ["package", "deploy"]) (some "test") 0 0 =
        (Except.ok (rs, true), c2, sl) ∧
      rs.length = (["build"] ++ "test" :: ["package", "deploy"]).length ∧
      rs.map StepResult.status =
        (["build"] : List String).map (fun _ => "success") ++
          "failed" :: (["package", "deploy"] : List String).map (fun _ => "skipped")) :=
  ⟨by decide, by decide,
   C1_fail_step_shape ["build"] ["package", "deploy"] "test" (by decide) (by decide) 0 0⟩

/-- The assembly tail returns an all-success RunResult when no step can
trigger the failure branch. -/
lemma finish_run_all_success (run_id artifact : String) (approved : Bool)
    (f : Option String) (secs : Int) (started_at clock inputCalls : Nat)
    (hnf : ∀ s ∈ PIPELINE_STEPS, fail_triggers f s = false) :
    ∃ r eff,
      finish_run run_id artifact approved f secs started_at clock inputCalls =
        (Except.ok r, eff) ∧
      (∀ s ∈ r.steps, s.status = "success") ∧ r.status = "success" := by
  obtain ⟨rs, c2, sl, heq, _, hprops⟩ := execute_all_success PIPELINE_STEPS f secs hnf clock
  refine ⟨RunResult.mk run_id artifact approved "success" started_at c2 rs,
      Effects.mk inputCalls sl, ?_, fun s hs => (hprops s hs).1, rfl⟩
  simp [finish_run, heq, utc_now_iso]

/-- Claim C2: when failStep is None or not a member of the step sequence and
the run reaches execution (valid artifact, approval passes), every returned
StepResult has status success and the RunResult has overall status success. -/
theorem C2_no_fail_all_success (run_id artifact : String) (rm ay : Bool)
    (f : Option String) (secs : Int) (ans : String) (clock : Nat)
    (hart : artifact_exists artifact = true)
    (happ : rm = false ∨ (require_approval ay ans).1 = true)
    (hf : f = none ∨ ∀ fs, f = some fs → fs ∉ PIPELINE_STEPS) :
    ∃ r eff,
      run_pipeline run_id artifact rm ay f secs ans clock = (Except.ok r, eff) ∧
      (∀ s ∈ r.steps, s.status = "success") ∧
      r.status = "success" := by
  have hnf : ∀ s ∈ PIPELINE_STEPS, fail_triggers f s = false := by
    intro s hs
    rcases hf with hf | hf
    · subst hf; rfl
    · cases f with
      | none => rfl
      | some fs => exact fail_triggers_ne fs s (fun h => (hf fs rfl) (h ▸ hs))
  unfold run_pipeline
  simp only [hart, if_true, utc_now_iso]
  cases rm with
  | true =>
    have hap : (require_approval ay ans).1 = true := by
      rcases happ with happ | happ
      · exact absurd happ (by simp)
      · exact happ
    simp only [if_true]
    rcases hra : require_approval ay ans with ⟨ap, n⟩
    rw [hra] at hap
    simp only at hap
    subst hap
    simp only [if_true]
    exact finish_run_all_success run_id artifact true f secs clock (clock + 1) n hnf
  | false =>
    simp only [Bool.false_eq_true, if_false]
    exact finish_run_all_success run_id artifact true f secs clock (clock + 1) 0 hnf

/-- Witness for C2 at a concrete input: known artifact, no approval gate,
no fail step. -/
theorem C2_no_fail_all_success_witness :
    artifact_exists "api-service@1.0.0" = true ∧
    ((false : Bool) = false ∨ (require_approval false "").1 = true) ∧
    ((none : Option String) = none ∨ ∀ fs, (none : Option String) = some fs → fs ∉ PIPELINE_STEPS) ∧
    (∃ r eff,
      run_pipeline "r1" "api-service@1.0.0" false false none 0 "" 0 = (Except.ok r, eff) ∧
      (∀ s ∈ r.steps, s.status = "success") ∧
      r.status = "success") :=
  ⟨by decide, Or.inl rfl, Or.inl rfl,
   C2_no_fail_all_success "r1" "api-service@1.0.0" false false none 0 "" 0
     (by decide) (Or.inl rfl) (Or.inl rfl)⟩

/-- Claim C3: an artifact key outside the registry makes run_pipeline raise
ArtifactNotFound with the input collaborator never invoked and no sleep
performed: approval is not consulted, no step executes, and no RunResult or
StepResult is produced. -/
theorem C3_unknown_artifact (run_id artifact : String) (rm ay : Bool) (f : Option String)
    (secs : Int) (ans : String) (clock : Nat)
    (h : artifact_exists artifact = false) :
    run_pipeline run_id artifact rm ay f secs ans clock =
      (Except.error (PyError.artifactNotFound ("Unknown artifact: " ++ artifact)),
       Effects.mk 0 []) := by
  simp [run_pipeline, utc_now_iso, h]

/-- Witness for C3 at the Scenario C artifact key of the spec. -/
theorem C3_unknown_artifact_witness :
    artifact_exists "unknown@0.0.0" = false ∧
    run_pipeline "r1" "unknown@0.0.0" true false none 0 "" 0 =
      (Except.error (PyError.artifactNotFound ("Unknown artifact: " ++ "unknown@0.0.0")),
       Effects.mk 0 []) :=
  ⟨by decide, C3_unknown_artifact "r1" "unknown@0.0.0" true false none 0 "" 0 (by decide)⟩

/-- Claim C4: when manual approval is required and the approval decision is
false, run_pipeline raises ApprovalRejected after exactly one input
invocation and with no sleep performed: no StepResult is constructed and no
RunResult is returned. -/
theorem C4_approval_rejected (run_id artifact : String) (ay : Bool) (f : Option String)
    (secs : Int) (ans : String) (clock : Nat)
    (hart : artifact_exists artifact = true)
    (hrej : (require_approval ay ans).1 = false) :
    run_pipeline run_id artifact true ay f secs ans clock =
      (Except.error (PyError.approvalRejected "Approval rejected by user."),
       Effects.mk 1 []) := by
  have hay : ay = false := by
    cases ay with
    | false => rfl
    | true => exact absurd hrej (by simp [require_approval])
  subst hay
  unfold run_pipeline
  simp only [hart, if_true, utc_now_iso]
  rcases hra : require_approval false ans with ⟨ap, n⟩
  rw [hra] at hrej
  simp only at hrej
  subst hrej
  have hn : n = 1 := by
    have h2 : (require_approval false ans).2 = 1 := by simp [require_approval]
    rw [hra] at h2
    exact h2
  subst hn
  simp

/-- Witness for C4 at a concrete input: approver answers n. -/
theorem C4_approval_rejected_witness :
    artifact_exists "api-service@1.0.0" = true ∧
    (require_approval false "n").1 = false ∧
    run_pipeline "r1" "api-service@1.0.0" true false none 0 "n" 0 =
      (Except.error (PyError.approvalRejected "Approval rejected by user."),
       Effects.mk 1 []) :=
  ⟨by decide, by decide,
   C4_approval_rejected "r1" "api-service@1.0.0" false none 0 "n" 0 (by decide) (by decide)⟩

/-- Claim C5: with auto_yes true and manual approval required, the blocking
input collaborator is never invoked and any returned RunResult is approved. -/
theorem C5_auto_yes_no_input (run_id artifact : String) (f : Option String)
    (secs : Int) (ans : String) (clock : Nat) :
    (run_pipeline run_id artifact true true f secs ans clock).2.inputCalls = 0 ∧
    ∀ r eff,
      run_pipeline run_id artifact true true f secs ans clock = (Except.ok r, eff) →
      r.approved = true := by
  constructor
  · unfold run_pipeline
    by_cases hart : artifact_exists artifact
    · simp only [hart, if_true, utc_now_iso]
      obtain ⟨r2, eff2, heq, _, _, _, _, _, _, heffn⟩ :=
        finish_run_spec run_id artifact true f secs clock (clock + 1) 0
      simp only [require_approval, if_true]
      rw [heq]
      exact heffn
    · simp [hart, utc_now_iso]
  · intro r eff h
    exact (run_pipeline_ok_spec run_id artifact true true f secs ans clock r eff h).1

/-- Witness for C5 at a concrete input. -/
theorem C5_auto_yes_no_input_witness :
    (run_pipeline "r1" "api-service@1.0.0" true true none 0 "" 0).2.inputCalls = 0 ∧
    (RunResult.mk "r1" "api-service@1.0.0" true "success" 0 9
      [StepResult.mk "build" "success" 1 2 "OK",
       StepResult.mk "test" "success" 3 4 "OK",
       StepResult.mk "package" "success" 5 6 "OK",
       StepResult.mk "deploy" "success" 7 8 "OK"]).approved = true :=
  ⟨(C5_auto_yes_no_input "r1" "api-service@1.0.0" none 0 "" 0).1,
   (C5_auto_yes_no_input "r1" "api-service@1.0.0" none 0 "" 0).2
     (RunResult.mk "r1" "api-service@1.0.0" true "success" 0 9
       [StepResult.mk "build" "success" 1 2 "OK",
        StepResult.mk "test" "success" 3 4 "OK",
        StepResult.mk "package" "success" 5 6 "OK",
        StepResult.mk "deploy" "success" 7 8 "OK"])
     (Effects.mk 0 [0, 0, 0, 0]) rfl⟩

/-- Claim C6: every RunResult run_pipeline actually returns carries exactly
one StepResult per pipeline step, also on simulated failure. -/
theorem C6_steps_length_invariant (run_id artifact : String) (rm ay : Bool)
    (f : Option String) (secs : Int) (ans : String) (clock : Nat)
    (r : RunResult) (eff : Effects)
    (h : run_pipeline run_id artifact rm ay f secs ans clock = (Except.ok r, eff)) :
    r.steps.length = PIPELINE_STEPS.length :=
  (run_pipeline_ok_spec run_id artifact rm ay f secs ans clock r eff h).2.1

/-- Witness for C6 at a concrete failing run: the skipped steps still count. -/
theorem C6_steps_length_invariant_witness :
    run_pipeline "r1" "api-service@1.0.0" false false (some "test") 0 "" 0 =
      (Except.ok (RunResult.mk "r1" "api-service@1.0.0" true "failed" 0 7
        [StepResult.mk "build" "success" 1 2 "OK",
         StepResult.mk "test" "failed" 3 4 "Simulated failure at step \x27test\x27.",
         StepResult.mk "package" "skipped" 5 5 "Skipped due to previous failure.",
         StepResult.mk "deploy" "skipped" 6 6 "Skipped due to previous failure."]),
       Effects.mk 0 [0, 0]) ∧
    (RunResult.mk "r1" "api-service@1.0.0" true "failed" 0 7
        [StepResult.mk "build" "success" 1 2 "OK",
         StepResult.mk "test" "failed" 3 4 "Simulated failure at step \x27test\x27.",
         StepResult.mk "package" "skipped" 5 5 "Skipped due to previous failure.",
         StepResult.mk "deploy" "skipped" 6 6 "Skipped due to previous failure."]).steps.length =
      PIPELINE_STEPS.length :=
  ⟨rfl,
   C6_steps_length_invariant "r1" "api-service@1.0.0" false false (some "test") 0 "" 0
     (RunResult.mk "r1" "api-service@1.0.0" true "failed" 0 7
       [StepResult.mk "build" "success" 1 2 "OK",
        StepResult.mk "test" "failed" 3 4 "Simulated failure at step \x27test\x27.",
        StepResult.mk "package" "skipped" 5 5 "Skipped due to previous failure.",
        StepResult.mk "deploy" "skipped" 6 6 "Skipped due to previous failure."])
     (Effects.mk 0 [0, 0]) rfl⟩

/-- Claim C7: a returned RunResult has overall status failed exactly when
some of its step results is failed, and status success otherwise; skipped
steps alone never make the run failed. -/
theorem C7_overall_status_derivation (run_id artifact : String) (rm ay : Bool)
    (f : Option String) (secs : Int) (ans : String) (clock : Nat)
    (r : RunResult) (eff : Effects)
    (h : run_pipeline run_id artifact rm ay f secs ans clock = (Except.ok r, eff)) :
    (r.status = "failed" ↔ ∃ s ∈ r.steps, s.status = "failed") ∧
    ((¬ ∃ s ∈ r.steps, s.status = "failed") → r.status = "success") := by
  obtain ⟨_, _, hst⟩ := run_pipeline_ok_spec run_id artifact rm ay f secs ans clock r eff h
  by_cases hany : r.steps.any (fun s => s.status == "failed") = true
  · have hfail : r.status = "failed" := by rw [hst, if_pos hany]
    have hex : ∃ s ∈ r.steps, s.status = "failed" := by
      simpa only [List.any_eq_true, beq_iff_eq] using hany
    exact ⟨⟨fun _ => hex, fun _ => hfail⟩, fun hno => absurd hex hno⟩
  · have hsucc : r.status = "success" := by rw [hst, if_neg hany]
    have hno : ¬ ∃ s ∈ r.steps, s.status = "failed" := by
      simpa only [List.any_eq_true, beq_iff_eq] using hany
    refine ⟨⟨fun hf => ?_, fun hex => absurd hex hno⟩, fun _ => hsucc⟩
    rw [hsucc] at hf
    exact absurd hf (by decide)

/-- Witness for C7 at a concrete failing run. -/
theorem C7_overall_status_derivation_witness :
    run_pipeline "r2" "api-service@1.0.0" false false (some "test") 0 "" 0 =
      (Except.ok (RunResult.mk "r2" "api-service@1.0.0" true "failed" 0 7
        [StepResult.mk "build" "success" 1 2 "OK",
         StepResult.mk "test" "failed" 3 4 "Simulated failure at step \x27test\x27.",
         StepResult.mk "package" "skipped" 5 5 "Skipped due to previous failure.",
         StepResult.mk "deploy" "skipped" 6 6 "Skipped due to previous failure."]),
       Effects.mk 0 [0, 0]) ∧
    ((RunResult.mk "r2" "api-service@1.0.0" true "failed" 0 7
        [StepResult.mk "build" "success" 1 2 "OK",
         StepResult.mk "test" "failed" 3 4 "Simulated failure at step \x27test\x27.",
         StepResult.mk "package" "skipped" 5 5 "Skipped due to previous failure.",
         StepResult.mk "deploy" "skipped" 6 6 "Skipped due to previous failure."]).status = "failed" ↔
      ∃ s ∈ (RunResult.mk "r2" "api-service@1.0.0" true "failed" 0 7
        [StepResult.mk "build" "success" 1 2 "OK",
         StepResult.mk "test" "failed" 3 4 "Simulated failure at step \x27test\x27.",
         StepResult.mk "package" "skipped" 5 5 "Skipped due to previous failure.",
         StepResult.mk "deploy" "skipped" 6 6 "Skipped due to previous failure."]).steps,
        s.status = "failed") :=
  ⟨rfl,
   (C7_overall_status_derivation "r2" "api-service@1.0.0" false false (some "test") 0 "" 0
     (RunResult.mk "r2" "api-service@1.0.0" true "failed" 0 7
       [StepResult.mk "build" "success" 1 2 "OK",
        StepResult.mk "test" "failed" 3 4 "Simulated failure at step \x27test\x27.",
        StepResult.mk "package" "skipped" 5 5 "Skipped due to previous failure.",
        StepResult.mk "deploy" "skipped" 6 6 "Skipped due to previous failure."])
     (Effects.mk 0 [0, 0]) rfl).1⟩

/-- Claim C8: when a step fails, each later step is recorded as skipped at a
single instant strictly after the failure, with exactly the message
"Skipped due to previous failure.", and the failed step carries the message
"Simulated failure at step ...", its timestamps spanning only that step. -/
theorem C8_skip_messages_and_instants (pre post : List String) (s0 : String)
    (f : Option String) (secs : Int) (clock : Nat)
    (hs : fail_triggers f s0 = true)
    (hpre : ∀ p ∈ pre, fail_triggers f p = false) :
    ∃ su fr sk c2 sl,
      execute (pre ++ s0 :: post) f secs clock = (Except.ok (su ++ fr :: sk, true), c2, sl) ∧
      fr.status = "failed" ∧
      fr.message = "Simulated failure at step \x27" ++ s0 ++ "\x27." ∧
      fr.finished_at = fr.started_at + 1 ∧
      sk.map StepResult.name = post ∧
      ∀ r ∈ sk, r.status = "skipped" ∧ r.started_at = r.finished_at ∧
        r.message = "Skipped due to previous failure." ∧ fr.finished_at < r.started_at := by
  obtain ⟨su, fr, sk, c2, sl, heq, _, _, _, hst, hmsg, hts, hname, hprops⟩ :=
    execute_fail_split pre post s0 f hs hpre secs clock
  exact ⟨su, fr, sk, c2, sl, heq, hst, hmsg, hts, hname, hprops⟩

/-- Witness for C8 at a concrete input: failure at step test. -/
theorem C8_skip_messages_and_instants_witness :
    fail_triggers (some "test") "test" = true ∧
    (∀ p ∈ (["build"] : List String), fail_triggers (some "test") p = false) ∧
    (∃ su fr sk c2 sl,
      execute (["build"] ++ "test" :: ["package", "deploy"]) (some "test") 0 0 =
        (Except.ok (su ++ fr :: sk, true), c2, sl) ∧
      fr.status = "failed" ∧
      fr.message = "Simulated failure at step \x27" ++ "test" ++ "\x27." ∧
      fr.finished_at = fr.started_at + 1 ∧
      sk.map StepResult.name = ["package", "deploy"] ∧
      ∀ r ∈ sk, r.status = "skipped" ∧ r.started_at = r.finished_at ∧
        r.message = "Skipped due to previous failure." ∧ fr.finished_at < r.started_at) :=
  ⟨by decide, by decide,
   C8_skip_messages_and_instants ["build"] ["package", "deploy"] "test" (some "test") 0 0
     (by decide) (by decide)⟩

/-- Claim C9: a negative simulate_seconds is clamped to zero: run_pipeline
behaves exactly as with a zero delay and never surfaces the ValueError a
negative sleep would raise. -/
theorem C9_negative_delay_clamped (run_id artifact : String) (rm ay : Bool)
    (f : Option String) (secs : Int) (ans : String) (clock : Nat) (h : secs < 0) :
    run_pipeline run_id artifact rm ay f secs ans clock =
      run_pipeline run_id artifact rm ay f 0 ans clock ∧
    ∀ m, (run_pipeline run_id artifact rm ay f secs ans clock).1 ≠
      Except.error (PyError.valueError m) := by
  constructor
  · have hfin : ∀ ap st c ic,
        finish_run run_id artifact ap f secs st c ic =
          finish_run run_id artifact ap f 0 st c ic := by
      intro ap st c ic
      unfold finish_run
      rw [execute_neg PIPELINE_STEPS f secs c h]
    unfold run_pipeline
    simp only [hfin]
  · intro m
    exact run_pipeline_no_value_error run_id artifact rm ay f secs ans clock m

/-- Witness for C9 at a concrete input: delay -1. -/
theorem C9_negative_delay_clamped_witness :
    (-1 : Int) < 0 ∧
    (run_pipeline "r1" "api-service@1.0.0" false false none (-1) "" 0 =
      run_pipeline "r1" "api-service@1.0.0" false false none 0 "" 0 ∧
    ∀ m, (run_pipeline "r1" "api-service@1.0.0" false false none (-1) "" 0).1 ≠
      Except.error (PyError.valueError m)) :=
  ⟨by decide,
   C9_negative_delay_clamped "r1" "api-service@1.0.0" false false none (-1) "" 0 (by decide)⟩

/-- Claim C10: every RunResult run_pipeline actually returns is approved and
has overall status success or failed; rejected runs and unknown artifacts
surface as raised errors, never as a returned RunResult. -/
theorem C10_returned_runs_approved (run_id artifact : String) (rm ay : Bool)
    (f : Option String) (secs : Int) (ans : String) (clock : Nat)
    (r : RunResult) (eff : Effects)
    (h : run_pipeline run_id artifact rm ay f secs ans clock = (Except.ok r, eff)) :
    r.approved = true ∧ (r.status = "success" ∨ r.status = "failed") := by
  obtain ⟨hap, _, hst⟩ := run_pipeline_ok_spec run_id artifact rm ay f secs ans clock r eff h
  refine ⟨hap, ?_⟩
  by_cases hany : r.steps.any (fun s => s.status == "failed") = true
  · right; rw [hst, if_pos hany]
  · left; rw [hst, if_neg hany]

/-- Witness for C10 at a concrete successful run. -/
theorem C10_returned_runs_approved_witness :
    run_pipeline "r3" "api-service@1.0.0" false false none 0 "" 0 =
      (Except.ok (RunResult.mk "r3" "api-service@1.0.0" true "success" 0 9
        [StepResult.mk "build" "success" 1 2 "OK",
         StepResult.mk "test" "success" 3 4 "OK",
         StepResult.mk "package" "success" 5 6 "OK",
         StepResult.mk "deploy" "success" 7 8 "OK"]),
       Effects.mk 0 [0, 0, 0, 0]) ∧
    ((RunResult.mk "r3" "api-service@1.0.0" true "success" 0 9
        [StepResult.mk "build" "success" 1 2 "OK",
         StepResult.mk "test" "success" 3 4 "OK",
         StepResult.mk "package" "success" 5 6 "OK",
         StepResult.mk "deploy" "success" 7 8 "OK"]).approved = true ∧
     ((RunResult.mk "r3" "api-service@1.0.0" true "success" 0 9
        [StepResult.mk "build" "success" 1 2 "OK",
         StepResult.mk "test" "success" 3 4 "OK",
         StepResult.mk "package" "success" 5 6 "OK",
         StepResult.mk "deploy" "success" 7 8 "OK"]).status = "success" ∨
      (RunResult.mk "r3" "api-service@1.0.0" true "success" 0 9
        [StepResult.mk "build" "success" 1 2 "OK",
         StepResult.mk "test" "success" 3 4 "OK",
         StepResult.mk "package" "success" 5 6 "OK",
         StepResult.mk "deploy" "success" 7 8 "OK"]).status = "failed")) :=
  ⟨rfl,
   C10_returned_runs_approved "r3" "api-service@1.0.0" false false none 0 "" 0
     (RunResult.mk "r3" "api-service@1.0.0" true "success" 0 9
       [StepResult.mk "build" "success" 1 2 "OK",
        StepResult.mk "test" "success" 3 4 "OK",
        StepResult.mk "package" "success" 5 6 "OK",
        StepResult.mk "deploy" "success" 7 8 "OK"])
     (Effects.mk 0 [0, 0, 0, 0]) rfl⟩

end PipelineCli
